import Mathlib

/-!
Shallow embedding of the environmental-monitoring core of the repository
(`app/environment/queries.py`, `app/environment/api.py`, with the table
layout of `app/environment/models.py` and the payload shapes of
`app/environment/schemas.py`).

Modelling conventions:
* `datetime` values are integers counting seconds; Python's
  `timedelta.days` (floor division of the elapsed seconds by 86400) and SQL
  Server's `DATEDIFF(day, a, b)` (count of midnight boundaries crossed,
  i.e. difference of the day numbers) are modelled separately because they
  differ on sub-day offsets.
* Python `float` monitor values and thresholds are modelled as `ℚ`; the
  claims under study only compare them with `<` / `>` and embed them in
  strings, which is order-faithful.
* The SQLAlchemy session is a record of lists, one per table; `db.get` on a
  primary key is `List.find?` on that key, `db.add`/`commit` appends, and
  in-place mutation of a fetched row followed by `commit` replaces the row
  with the matching key.
* `Python truthiness`: `x or 30` on a nullable integer column yields 30 for
  both `None` and `0` (`pyOrInt`); `if not data.data_id` treats both `None`
  and `""` as absent (`resolveId`).
-/

/-- Python `timedelta.days` of a difference of `delta` seconds: floor
division by 86400 (Python `//` on the total seconds). -/
def timedeltaDays (delta : Int) : Int := Int.fdiv delta 86400

/-- SQL Server `DATEDIFF(day, a, b)`: the number of day boundaries crossed
between the two instants, i.e. the difference of their day numbers. -/
def datediffDay (a b : Int) : Int := Int.fdiv b 86400 - Int.fdiv a 86400

/-- Python `x or d` on a nullable integer (`None` and `0` are falsy). -/
def pyOrInt (x : Option Int) (d : Int) : Int :=
  match x with
  | none => d
  | some v => if v = 0 then d else v

/-- Python `data_id if data_id else generated`: `if not data.data_id:` in the
API layer replaces both a missing id and an empty-string id. -/
def resolveId (given : Option String) (generated : String) : String :=
  match given with
  | none => generated
  | some s => if s = "" then generated else s

/-- Round a rational to the nearest integer, ties to even — the behaviour of
Python's built-in `round` on exact values. -/
def roundHalfEven (x : ℚ) : ℤ :=
  let f := x.floor
  if x - f < 1/2 then f
  else if 1/2 < x - f then f + 1
  else if f % 2 = 0 then f else f + 1

/-- Python `round(x, 2)`: round to two decimal places. -/
def roundTo2 (x : ℚ) : ℚ := (roundHalfEven (x * 100) : ℚ) / 100

/-- Row of table `环境监测指标表` (monitor-indicator table, `models.py`). -/
structure MonitorIndex where
  index_id : String
  index_name : String
  unit : String
  upper_threshold : ℚ
  lower_threshold : ℚ
  monitor_frequency : String
  created_at : Int
  updated_at : Int
deriving DecidableEq

/-- Row of table `监测设备表` (monitor-device table; the table lives in
`app/shared/models.py`, its columns are those read and written by
`queries.py` and mirrored by the `MonitorDevice` schema of `schemas.py`). -/
structure MonitorDevice where
  id : Int
  type : String
  deployment_area_id : Option Int
  install_time : Option Int
  calibration_cycle : Option Int
  last_calibration_time : Option Int
  status : String
  communication_protocol : Option String
  latitude : Option ℚ
  longitude : Option ℚ
  created_at : Int
  updated_at : Int
deriving DecidableEq

/-- Row of table `环境监测数据表` (environment-reading table, `models.py`);
`is_abnormal` is the BIT column holding 0 or 1, `audit_status` defaults to
"未审核" (unaudited). -/
structure EnvironmentData where
  data_id : String
  index_id : String
  device_id : Int
  collect_time : Int
  monitor_value : ℚ
  area_id : Int
  data_quality : String
  is_abnormal : Nat
  abnormal_reason : Option String
  audit_status : String
  created_at : Int
  updated_at : Int
deriving DecidableEq

/-- Row of table `设备校准记录表` (calibration-record table, `models.py`). -/
structure CalibrationRecord where
  record_id : String
  device_id : Int
  calibration_time : Int
  calibrator_id : Int
  calibration_result : String
  calibration_desc : Option String
  created_at : Int
  updated_at : Int
deriving DecidableEq

/-- Row of the externally owned table `区域表` (area table): id, name and
category type (the reports read `区域表.id`, `区域表.name`, `区域表.type`). -/
structure Area where
  id : Int
  name : String
  type : String
deriving DecidableEq

/-- The persistent store: one list per table, in insertion order. -/
structure DB where
  indices : List MonitorIndex
  devices : List MonitorDevice
  envData : List EnvironmentData
  calRecords : List CalibrationRecord
  areas : List Area
deriving DecidableEq

/-- `db.get(环境监测指标表, index_id)`. -/
def DB.getMonitorIndex (db : DB) (index_id : String) : Option MonitorIndex :=
  db.indices.find? (fun i => i.index_id == index_id)

/-- `db.get(监测设备表, device_id)`. -/
def DB.getMonitorDevice (db : DB) (device_id : Int) : Option MonitorDevice :=
  db.devices.find? (fun d => d.id == device_id)

/-- `db.get(环境监测数据表, data_id)`. -/
def DB.getEnvironmentData (db : DB) (data_id : String) : Option EnvironmentData :=
  db.envData.find? (fun d => d.data_id == data_id)

/-- `db.get(设备校准记录表, record_id)`. -/
def DB.getCalibrationRecord (db : DB) (record_id : String) : Option CalibrationRecord :=
  db.calRecords.find? (fun r => r.record_id == record_id)

/-- `区域表` lookup by primary key (the joins on `区域表.id`). -/
def DB.getArea (db : DB) (area_id : Int) : Option Area :=
  db.areas.find? (fun a => a.id == area_id)

/-- Payload `MonitorIndexCreate` of `schemas.py`. -/
structure MonitorIndexCreate where
  index_id : String
  index_name : String
  unit : String
  upper_threshold : ℚ
  lower_threshold : ℚ
  monitor_frequency : String
deriving DecidableEq

/-- Payload `MonitorIndexUpdate` of `schemas.py`: all fields optional;
`update_monitor_index` applies exactly the non-`None` ones. -/
structure MonitorIndexUpdate where
  index_name : Option String
  unit : Option String
  upper_threshold : Option ℚ
  lower_threshold : Option ℚ
  monitor_frequency : Option String
deriving DecidableEq

/-- Payload `EnvironmentDataCreate` of `schemas.py` (`data_id` optional). -/
structure EnvironmentDataCreate where
  data_id : Option String
  index_id : String
  device_id : Int
  collect_time : Int
  monitor_value : ℚ
  area_id : Int
  data_quality : String
deriving DecidableEq

/-- Payload `CalibrationRecordCreate` of `schemas.py` (`record_id` optional). -/
structure CalibrationRecordCreate where
  record_id : Option String
  device_id : Int
  calibration_time : Int
  calibrator_id : Int
  calibration_result : String
  calibration_desc : Option String
deriving DecidableEq

/-- `EnvironmentQueries.create_monitor_index` (queries.py:15-30): build the
row with `created_at = updated_at = now`, add, commit, return it. -/
def create_monitor_index (db : DB) (index : MonitorIndexCreate) (now : Int) :
    MonitorIndex × DB :=
  let db_index : MonitorIndex :=
    { index_id := index.index_id
      index_name := index.index_name
      unit := index.unit
      upper_threshold := index.upper_threshold
      lower_threshold := index.lower_threshold
      monitor_frequency := index.monitor_frequency
      created_at := now
      updated_at := now }
  (db_index, { db with indices := db.indices ++ [db_index] })

/-- The `for key, value in update_data.items(): if value is not None:
setattr(db_index, key, value)` loop of `update_monitor_index`
(queries.py:51-54), followed by the `updated_at` refresh: each non-`None`
payload field replaces the stored one. -/
def applyMonitorIndexUpdate (u : MonitorIndexUpdate) (idx : MonitorIndex)
    (now : Int) : MonitorIndex :=
  { index_id := idx.index_id
    index_name := u.index_name.getD idx.index_name
    unit := u.unit.getD idx.unit
    upper_threshold := u.upper_threshold.getD idx.upper_threshold
    lower_threshold := u.lower_threshold.getD idx.lower_threshold
    monitor_frequency := u.monitor_frequency.getD idx.monitor_frequency
    created_at := idx.created_at
    updated_at := now }

/-- `EnvironmentQueries.update_monitor_index` (queries.py:45-58): fetch by
id (`None` result when absent), apply every non-`None` field of the update
payload, refresh `updated_at`, commit. -/
def update_monitor_index (db : DB) (index_id : String) (u : MonitorIndexUpdate)
    (now : Int) : Option (MonitorIndex × DB) :=
  match db.getMonitorIndex index_id with
  | none => none
  | some idx =>
    let idx' := applyMonitorIndexUpdate u idx now
    some (idx',
      { db with indices := db.indices.map (fun i => if i.index_id == index_id then idx' else i) })

/-- The per-device test inside `get_devices_needing_calibration`
(queries.py:113-119): never calibrated, or whole elapsed days (Python
`timedelta.days`) at least `calibration_cycle or 30`. -/
def needsCalibration (now : Int) (device : MonitorDevice) : Bool :=
  match device.last_calibration_time with
  | none => true
  | some t => pyOrInt device.calibration_cycle 30 ≤ timedeltaDays (now - t)

/-- `EnvironmentQueries.get_devices_needing_calibration` (queries.py:103-121):
fetch every device whose status is not "离线" (offline), keep those passing
`needsCalibration`, in table order. -/
def get_devices_needing_calibration (db : DB) (now : Int) : List MonitorDevice :=
  let all_devices := db.devices.filter (fun d => d.status != "离线")
  all_devices.filter (needsCalibration now)

/-- `EnvironmentQueries.create_environment_data` (queries.py:123-153): load
the indicator by the reading's `index_id`; if present and the value is
strictly above the upper threshold, flag abnormal with the upper-bound
reason string; else if strictly below the lower threshold, flag abnormal
with the lower-bound reason string; otherwise (including an absent
indicator) the reading is normal with no reason.  The row is inserted with
the column default `audit_status = "未审核"`.  `data_id` is the id already
resolved by the caller (api.py:142-143). -/
def create_environment_data (db : DB) (data_id : String)
    (data : EnvironmentDataCreate) (now : Int) : EnvironmentData × DB :=
  let monitor_index := db.getMonitorIndex data.index_id
  let classified : Nat × Option String :=
    match monitor_index with
    | some mi =>
      if mi.upper_threshold < data.monitor_value then
        (1, some ("监测值" ++ toString data.monitor_value ++ "超过上限阈值"
                    ++ toString mi.upper_threshold))
      else if data.monitor_value < mi.lower_threshold then
        (1, some ("监测值" ++ toString data.monitor_value ++ "低于下限阈值"
                    ++ toString mi.lower_threshold))
      else (0, none)
    | none => (0, none)
  let db_data : EnvironmentData :=
    { data_id := data_id
      index_id := data.index_id
      device_id := data.device_id
      collect_time := data.collect_time
      monitor_value := data.monitor_value
      area_id := data.area_id
      data_quality := data.data_quality
      is_abnormal := classified.1
      abnormal_reason := classified.2
      audit_status := "未审核"
      created_at := now
      updated_at := now }
  (db_data, { db with envData := db.envData ++ [db_data] })

/-- The field writes of `update_data_audit_status` (queries.py:200-203): set
`audit_status`, overwrite `abnormal_reason` only when a reason argument was
supplied, refresh `updated_at`. -/
def applyAuditUpdate (audit_status : String) (abnormal_reason : Option String)
    (now : Int) (db_data : EnvironmentData) : EnvironmentData :=
  { db_data with
    audit_status := audit_status
    abnormal_reason :=
      match abnormal_reason with
      | some r => some r
      | none => db_data.abnormal_reason
    updated_at := now }

/-- `EnvironmentQueries.update_data_audit_status` (queries.py:189-207): fetch
the reading by id (`None` when absent), apply the audit-field writes,
commit. -/
def update_data_audit_status (db : DB) (data_id : String) (audit_status : String)
    (abnormal_reason : Option String) (now : Int) : Option (EnvironmentData × DB) :=
  match db.getEnvironmentData data_id with
  | none => none
  | some db_data =>
    let updated := applyAuditUpdate audit_status abnormal_reason now db_data
    some (updated,
      { db with envData := db.envData.map (fun d => if d.data_id == data_id then updated else d) })

/-- `EnvironmentQueries.create_calibration_record` (queries.py:209-230):
build the record; if the referenced device exists, overwrite its
`last_calibration_time` with the record's `calibration_time` and its
`updated_at` with now; add the record; a single commit publishes both.
`record_id` is the id already resolved by the caller (api.py:204-205). -/
def create_calibration_record (db : DB) (record_id : String)
    (record : CalibrationRecordCreate) (now : Int) : CalibrationRecord × DB :=
  let db_record : CalibrationRecord :=
    { record_id := record_id
      device_id := record.device_id
      calibration_time := record.calibration_time
      calibrator_id := record.calibrator_id
      calibration_result := record.calibration_result
      calibration_desc := record.calibration_desc
      created_at := now
      updated_at := now }
  let devices' :=
    match db.getMonitorDevice record.device_id with
    | some _ =>
      db.devices.map (fun d =>
        if d.id == record.device_id then
          { d with last_calibration_time := some record.calibration_time, updated_at := now }
        else d)
    | none => db.devices
  (db_record, { db with devices := devices', calRecords := db.calRecords ++ [db_record] })

/-- Data-quality grades counted as qualified by the quality-rate report
(queries.py:249): `data_quality IN ('优', '良')`. -/
def qualifiedGrade (q : String) : Bool := q == "优" || q == "良"

/-- One output row of `get_device_data_quality_rate`. -/
structure QualityRateRow where
  device_id : Int
  device_type : String
  area_name : String
  total_data_count : Nat
  qualified_count : Nat
  qualified_rate : ℚ
deriving DecidableEq

/-- Descending order on `qualified_rate` (queries.py:275,
`sort(key=..., reverse=True)`). -/
def rateDesc (a b : QualityRateRow) : Prop := b.qualified_rate ≤ a.qualified_rate

instance : DecidableRel rateDesc :=
  fun a b => inferInstanceAs (Decidable (b.qualified_rate ≤ a.qualified_rate))

instance : IsTotal QualityRateRow rateDesc := ⟨fun _ _ => le_total _ _⟩

instance : IsTrans QualityRateRow rateDesc := ⟨fun _ _ _ h1 h2 => le_trans h2 h1⟩

/-- The readings grouped onto a device by the quality-rate report's outer
join (queries.py:253-257): same `device_id`, `collect_time >= start_time`. -/
def deviceWindowData (db : DB) (start_time : Int) (device_id : Int) :
    List EnvironmentData :=
  db.envData.filter (fun r => r.device_id == device_id && start_time ≤ r.collect_time)

/-- `EnvironmentQueries.get_device_data_quality_rate` (queries.py:238-276):
every device inner-joined to its area, outer-joined to its window readings;
per device, total count, count with grade in {优, 良}, and
`rate = round(qualified*100.0/total, 2)` or `0.0` when the total is zero;
finally sorted by rate descending. -/
def get_device_data_quality_rate (db : DB) (now : Int) (days : Int) :
    List QualityRateRow :=
  let start_time := now - days * 86400
  let rows := db.devices.filterMap (fun dev =>
    match dev.deployment_area_id.bind db.getArea with
    | none => none
    | some area =>
      let datas := deviceWindowData db start_time dev.id
      let total := datas.length
      let qualified := (datas.filter (fun r => qualifiedGrade r.data_quality)).length
      let rate : ℚ := if total = 0 then 0 else roundTo2 ((qualified : ℚ) * 100 / (total : ℚ))
      some { device_id := dev.id
             device_type := dev.type
             area_name := area.name
             total_data_count := total
             qualified_count := qualified
             qualified_rate := rate })
  rows.insertionSort rateDesc

/-- The WHERE predicate of the overdue-calibration report on the joined
device (queries.py:300-305): `last_calibration_time IS NULL OR
DATEDIFF(day, last_calibration_time, now) > calibration_cycle`; under SQL
three-valued logic a NULL `calibration_cycle` makes the comparison unknown,
so such a row is not selected. -/
def reportOverdue (now : Int) (d : MonitorDevice) : Bool :=
  match d.last_calibration_time with
  | none => true
  | some t =>
    match d.calibration_cycle with
    | some c => c < datediffDay t now
    | none => false

/-- One output row of `get_overdue_calibration_devices_data`. -/
structure OverdueRow where
  data_id : String
  collect_time : Int
  index_id : String
  index_name : String
  monitor_value : ℚ
  device_id : Int
  device_type : String
  calibration_cycle : Option Int
  last_calibration_time : Option Int
  data_quality : String
deriving DecidableEq

/-- `EnvironmentQueries.get_overdue_calibration_devices_data`
(queries.py:278-309): window readings inner-joined to device and indicator,
kept when the device passes `reportOverdue`, ordered by device id then
reading time descending. -/
def get_overdue_calibration_devices_data (db : DB) (now : Int) (days : Int) :
    List OverdueRow :=
  let start_time := now - days * 86400
  let rows := db.envData.filterMap (fun r =>
    match db.getMonitorDevice r.device_id, db.getMonitorIndex r.index_id with
    | some dev, some idx =>
      if start_time ≤ r.collect_time ∧ reportOverdue now dev then
        some { data_id := r.data_id
               collect_time := r.collect_time
               index_id := r.index_id
               index_name := idx.index_name
               monitor_value := r.monitor_value
               device_id := dev.id
               device_type := dev.type
               calibration_cycle := dev.calibration_cycle
               last_calibration_time := dev.last_calibration_time
               data_quality := r.data_quality }
      else none
    | _, _ => none)
  rows.insertionSort (fun a b =>
    a.device_id < b.device_id ∨ (a.device_id = b.device_id ∧ b.collect_time ≤ a.collect_time))

/-- One output row of `query_core_protection_abnormal_data`. -/
structure CoreAbnormalRow where
  data_id : String
  collect_time : Int
  monitor_value : ℚ
  upper_threshold : ℚ
  lower_threshold : ℚ
  device_id : Int
  device_type : String
  run_status : String
  area_name : String
  abnormal_reason : Option String
deriving DecidableEq

/-- Descending order on `collect_time` (queries.py:336). -/
def collectTimeDesc (a b : CoreAbnormalRow) : Prop := b.collect_time ≤ a.collect_time

instance : DecidableRel collectTimeDesc :=
  fun a b => inferInstanceAs (Decidable (b.collect_time ≤ a.collect_time))

instance : IsTotal CoreAbnormalRow collectTimeDesc := ⟨fun _ _ => le_total _ _⟩

instance : IsTrans CoreAbnormalRow collectTimeDesc := ⟨fun _ _ _ h1 h2 => le_trans h2 h1⟩

/-- `EnvironmentQueries.query_core_protection_abnormal_data`
(queries.py:311-339): readings inner-joined to indicator, device and area,
kept when the area type is "核心保护区" (core protection), the indicator has
the requested name, the reading is flagged abnormal, and
`collect_time >= now - days`; ordered by reading time descending. -/
def query_core_protection_abnormal_data (db : DB) (index_name : String)
    (now : Int) (days : Int) : List CoreAbnormalRow :=
  let start_time := now - days * 86400
  let rows := db.envData.filterMap (fun r =>
    match db.getMonitorIndex r.index_id, db.getMonitorDevice r.device_id,
        db.getArea r.area_id with
    | some idx, some dev, some area =>
      if area.type == "核心保护区" && idx.index_name == index_name
          && r.is_abnormal == 1 && decide (start_time ≤ r.collect_time) then
        some { data_id := r.data_id
               collect_time := r.collect_time
               monitor_value := r.monitor_value
               upper_threshold := idx.upper_threshold
               lower_threshold := idx.lower_threshold
               device_id := dev.id
               device_type := dev.type
               run_status := dev.status
               area_name := area.name
               abnormal_reason := r.abnormal_reason }
      else none
    | _, _, _ => none)
  rows.insertionSort collectTimeDesc

/-- `EnvironmentQueries.update_device_status` (queries.py:92-101). -/
def update_device_status (db : DB) (device_id : Int) (status_value : String)
    (now : Int) : Option (MonitorDevice × DB) :=
  match db.getMonitorDevice device_id with
  | none => none
  | some dev =>
    let dev' : MonitorDevice := { dev with status := status_value, updated_at := now }
    some (dev',
      { db with devices := db.devices.map (fun d => if d.id == device_id then dev' else d) })

/-- `EnvironmentQueries.delete_monitor_index` (queries.py:374-381). -/
def delete_monitor_index (db : DB) (index_id : String) : Bool × DB :=
  match db.getMonitorIndex index_id with
  | none => (false, db)
  | some _ => (true, { db with indices := db.indices.filter (fun i => i.index_id != index_id) })

/-- `EnvironmentQueries.delete_environment_data` (queries.py:392-399). -/
def delete_environment_data (db : DB) (data_id : String) : Bool × DB :=
  match db.getEnvironmentData data_id with
  | none => (false, db)
  | some _ => (true, { db with envData := db.envData.filter (fun d => d.data_id != data_id) })

/-- `EnvironmentQueries.delete_calibration_record` (queries.py:401-408). -/
def delete_calibration_record (db : DB) (record_id : String) : Bool × DB :=
  match db.getCalibrationRecord record_id with
  | none => (false, db)
  | some _ =>
    (true, { db with calRecords := db.calRecords.filter (fun r => r.record_id != record_id) })

/-- Structured errors surfaced by the API layer: 404 (`NotFound`) and the
duplicate-id 400 (`Conflict`). -/
inductive ApiError where
  | NotFound
  | Conflict
deriving DecidableEq

/-- `create_monitor_index` endpoint (api.py:42-52): 400 Conflict when the id
already exists, otherwise insert. -/
def api_create_monitor_index (db : DB) (index : MonitorIndexCreate) (now : Int) :
    Except ApiError (MonitorIndex × DB) :=
  match db.getMonitorIndex index.index_id with
  | some _ => .error .Conflict
  | none => .ok (create_monitor_index db index now)

/-- `create_environment_data` endpoint (api.py:133-149): generate an id when
none (or an empty one) was supplied, 400 Conflict when the resolved id
already exists, otherwise insert-and-classify. -/
def api_create_environment_data (db : DB) (data : EnvironmentDataCreate)
    (generated : String) (now : Int) : Except ApiError (EnvironmentData × DB) :=
  let did := resolveId data.data_id generated
  match db.getEnvironmentData did with
  | some _ => .error .Conflict
  | none => .ok (create_environment_data db did data now)

/-- `create_calibration_record` endpoint (api.py:197-206): generate an id
when none (or an empty one) was supplied, then insert — the endpoint
performs no duplicate-id check before handing the record to the store. -/
def api_create_calibration_record (db : DB) (record : CalibrationRecordCreate)
    (generated : String) (now : Int) : Except ApiError (CalibrationRecord × DB) :=
  let rid := resolveId record.record_id generated
  .ok (create_calibration_record db rid record now)

/-! ### Concrete fixtures used by the per-claim witnesses and counterexamples -/

/-- A PM2.5-style indicator with upper threshold 75 and lower threshold 0. -/
def idxC1 : MonitorIndex :=
  { index_id := "PM25", index_name := "空气质量PM2.5", unit := "μg/m3"
    upper_threshold := 75, lower_threshold := 0, monitor_frequency := "小时"
    created_at := 0, updated_at := 0 }

/-- Store holding only `idxC1`. -/
def dbC1 : DB := { indices := [idxC1], devices := [], envData := [], calRecords := [], areas := [] }

/-- A reading payload against `idxC1` with value 120 (above the upper bound). -/
def dataC1 : EnvironmentDataCreate :=
  { data_id := some "ED1", index_id := "PM25", device_id := 1, collect_time := 100
    monitor_value := 120, area_id := 1, data_quality := "优" }

/-- A normal-status device with a 30-day cycle, last calibrated at instant 0. -/
def devC2 : MonitorDevice :=
  { id := 1, type := "空气质量传感器", deployment_area_id := some 1, install_time := none
    calibration_cycle := some 30, last_calibration_time := some 0, status := "正常"
    communication_protocol := none, latitude := none, longitude := none
    created_at := 0, updated_at := 0 }

/-- The same device but offline. -/
def devC2off : MonitorDevice := { devC2 with id := 2, status := "离线" }

/-- Store holding `devC2` and `devC2off`. -/
def dbC2 : DB := { indices := [], devices := [devC2, devC2off], envData := [], calRecords := [], areas := [] }

/-- An abnormal reading awaiting audit, with a creation-time reason. -/
def envC3 : EnvironmentData :=
  { data_id := "ED1", index_id := "PM25", device_id := 1, collect_time := 100
    monitor_value := 120, area_id := 1, data_quality := "优", is_abnormal := 1
    abnormal_reason := some "原始原因", audit_status := "未审核", created_at := 0, updated_at := 0 }

/-- Store holding only `envC3`. -/
def dbC3 : DB := { indices := [], devices := [], envData := [envC3], calRecords := [], areas := [] }

/-- Device 7, normal status, for the calibration-ledger claim. -/
def devC4 : MonitorDevice := { devC2 with id := 7 }

/-- Store holding only `devC4`. -/
def dbC4 : DB := { indices := [], devices := [devC4], envData := [], calRecords := [], areas := [] }

/-- A calibration-record payload against device 7. -/
def recC4 : CalibrationRecordCreate :=
  { record_id := some "CR9", device_id := 7, calibration_time := 500, calibrator_id := 3
    calibration_result := "合格", calibration_desc := none }

/-- Device with a 30-day cycle last calibrated at instant 0, used to compare
the two overdue predicates. -/
def devC5 : MonitorDevice := { devC2 with id := 5 }

/-- The same device observed 31 days plus one second later, when the strict
report predicate also fires. -/
def devC5w : MonitorDevice := { devC2 with id := 6 }

/-- Area of the ordinary category. -/
def areaC6 : Area := { id := 1, name := "缓冲区A", type := "一般控制区" }

/-- Device 1 deployed in `areaC6`, with three window readings. -/
def devC6a : MonitorDevice := { devC2 with id := 1, deployment_area_id := some 1 }

/-- Device 2 deployed in `areaC6`, with no readings at all. -/
def devC6b : MonitorDevice := { devC2 with id := 2, deployment_area_id := some 1 }

/-- Three readings on device 1 inside the window, exactly one of a qualified
grade. -/
def dbC6 : DB :=
  { indices := [], devices := [devC6a, devC6b]
    envData :=
      [ { envC3 with data_id := "E1", device_id := 1, collect_time := 100, data_quality := "优" }
      , { envC3 with data_id := "E2", device_id := 1, collect_time := 200, data_quality := "中" }
      , { envC3 with data_id := "E3", device_id := 1, collect_time := 300, data_quality := "差" } ]
    calRecords := [], areas := [areaC6] }

/-- The same store restricted to device 1 alone, so that the quality-rate
report returns a single row. -/
def dbC6s : DB := { dbC6 with devices := [devC6a] }

/-- An already-persisted calibration record with id "CR1". -/
def recC7stored : CalibrationRecord :=
  { record_id := "CR1", device_id := 1, calibration_time := 0, calibrator_id := 3
    calibration_result := "合格", calibration_desc := none, created_at := 0, updated_at := 0 }

/-- Store holding an indicator, a reading and a calibration record, for the
duplicate-id claim. -/
def dbC7 : DB :=
  { indices := [idxC1], devices := [], envData := [envC3], calRecords := [recC7stored], areas := [] }

/-- A create payload reusing the already-stored record id "CR1". -/
def recC7 : CalibrationRecordCreate :=
  { record_id := some "CR1", device_id := 1, calibration_time := 700, calibrator_id := 4
    calibration_result := "合格", calibration_desc := none }

/-- Core-protection area for the abnormal report. -/
def areaC8 : Area := { id := 1, name := "核心区A", type := "核心保护区" }

/-- A reading flagged abnormal whose collection time (day 90) lies after the
evaluation instant 0 of the report. -/
def dbC8 : DB :=
  { indices := [idxC1], devices := [devC6a]
    envData := [{ envC3 with data_id := "E9", collect_time := 7776000 }]
    calRecords := [], areas := [areaC8] }

/-- An empty store. -/
def dbEmpty : DB := { indices := [], devices := [], envData := [], calRecords := [], areas := [] }

/-- Store holding only `idxC1`, for the partial-update claim. -/
def dbC9 : DB := dbC1

/-- A partial update supplying only a new name and a new upper threshold. -/
def updC9 : MonitorIndexUpdate :=
  { index_name := some "PM2.5浓度", unit := none, upper_threshold := some 80
    lower_threshold := none, monitor_frequency := none }

/-- A normal-status device that has a NULL calibration cycle, last calibrated
at instant 0. -/
def devC10 : MonitorDevice := { devC2 with id := 10, calibration_cycle := none }

/-- Store holding only `devC10`. -/
def dbC10 : DB := { indices := [], devices := [devC10], envData := [], calRecords := [], areas := [] }

/-! ### Helper lemmas -/

/-- Updating, in place, the rows that satisfy a key predicate — by a function
that preserves the key — maps the row found by `find?`. -/
theorem find?_map_ite {α : Type} (p : α → Bool) (g : α → α)
    (hg : ∀ x, p x = true → p (g x) = true) :
    ∀ (l : List α) (d : α), l.find? p = some d →
      (l.map (fun x => if p x then g x else x)).find? p = some (g d) := by
  intro l
  induction l with
  | nil => intro d h; simp at h
  | cons a l ih =>
    intro d h
    by_cases ha : p a
    · rw [List.find?_cons_of_pos l ha] at h
      injection h with h
      subst h
      simp only [List.map_cons, if_pos ha]
      exact List.find?_cons_of_pos _ (hg a ha)
    · rw [List.find?_cons_of_neg l ha] at h
      simp only [List.map_cons, if_neg ha]
      rw [List.find?_cons_of_neg _ ha]
      exact ih d h

/-- After filtering away every row satisfying a key predicate, `find?` on
that key returns nothing. -/
theorem find?_filter_neg {α : Type} (p q : α → Bool) (hpq : ∀ x, q x = !p x) :
    ∀ l : List α, (l.filter q).find? p = none := by
  intro l
  induction l with
  | nil => rfl
  | cons a l ih =>
    rw [List.filter_cons]
    by_cases ha : p a
    · have hq : q a = false := by rw [hpq, ha]; rfl
      rw [if_neg (by simp [hq])]
      exact ih
    · have hq : q a = true := by rw [hpq]; simp [ha]
      rw [if_pos hq, List.find?_cons_of_neg _ ha]
      exact ih

/-- An in-place update that rewrites every key-matching row to the fixed row
`v` (itself key-matching) is idempotent. -/
theorem map_ite_idem {α : Type} (p : α → Bool) (v : α) (hv : p v = true) (l : List α) :
    (l.map (fun x => if p x then v else x)).map (fun x => if p x then v else x) =
      l.map (fun x => if p x then v else x) := by
  rw [List.map_map]
  apply List.map_congr_left
  intro x _
  by_cases hx : p x
  · simp [Function.comp, hx, hv]
  · simp [Function.comp, hx]

/-- SQL `DATEDIFF(day, t, now)` counts at most one more day than Python's
`(now - t).days`. -/
theorem datediffDay_le_timedeltaDays_add_one (t now : Int) :
    datediffDay t now ≤ timedeltaDays (now - t) + 1 := by
  unfold datediffDay timedeltaDays
  rw [Int.fdiv_eq_ediv _ (by norm_num : (0:ℤ) ≤ 86400),
    Int.fdiv_eq_ediv _ (by norm_num : (0:ℤ) ≤ 86400),
    Int.fdiv_eq_ediv _ (by norm_num : (0:ℤ) ≤ 86400)]
  omega

/-! ### Claim theorems -/

/-- C2: a device is returned by the calibration-due query exactly when it is
stored, its status is not offline, and it was either never calibrated or the
whole-day difference since its last calibration is at least its (positive)
calibration cycle; in particular an offline device is never returned. -/
theorem C2_calibration_due (db : DB) (now : Int) :
    (∀ (d : MonitorDevice) (c : Int), d.calibration_cycle = some c → 0 < c →
      (d ∈ get_devices_needing_calibration db now ↔
        d ∈ db.devices ∧ d.status ≠ "离线" ∧
          (d.last_calibration_time = none ∨
            ∃ t, d.last_calibration_time = some t ∧ c ≤ timedeltaDays (now - t)))) ∧
    (∀ d : MonitorDevice, d.status = "离线" → d ∉ get_devices_needing_calibration db now) := by
  constructor
  · intro d c hc hcpos
    have hpy : pyOrInt d.calibration_cycle 30 = c := by
      rw [hc]
      show (if c = 0 then (30:ℤ) else c) = c
      rw [if_neg (by omega)]
    constructor
    · intro hmem
      simp only [get_devices_needing_calibration, List.mem_filter] at hmem
      obtain ⟨⟨hdev, hstat⟩, hneed⟩ := hmem
      refine ⟨hdev, by simpa using hstat, ?_⟩
      cases hlt : d.last_calibration_time with
      | none => exact Or.inl rfl
      | some t =>
        right
        refine ⟨t, rfl, ?_⟩
        simp only [needsCalibration, hlt, hpy] at hneed
        exact of_decide_eq_true hneed
    · rintro ⟨hdev, hstat, hdue⟩
      simp only [get_devices_needing_calibration, List.mem_filter]
      refine ⟨⟨hdev, by simpa using hstat⟩, ?_⟩
      cases hdue with
      | inl h => simp [needsCalibration, h]
      | inr h =>
        obtain ⟨t, ht, hle⟩ := h
        simp [needsCalibration, ht, hpy, hle]
  · intro d hoff hmem
    simp only [get_devices_needing_calibration, List.mem_filter] at hmem
    obtain ⟨⟨_, hstat⟩, _⟩ := hmem
    simp [hoff] at hstat

/-- Witness for C2: the 45-days-stale normal device is returned at instant
3888000 while its offline twin is not. -/
theorem C2_calibration_due_witness :
    devC2 ∈ get_devices_needing_calibration dbC2 3888000 ∧
    devC2off ∉ get_devices_needing_calibration dbC2 3888000 := by
  constructor
  · exact ((C2_calibration_due dbC2 3888000).1 devC2 30 rfl (by norm_num)).mpr
      ⟨by decide, by decide, Or.inr ⟨0, rfl, by decide⟩⟩
  · exact (C2_calibration_due dbC2 3888000).2 devC2off rfl

/-- C10: in the calibration-due query a stored, non-offline device with a
NULL calibration cycle is treated as having a 30-day cycle: it is returned
exactly when it was never calibrated or at least 30 whole days have elapsed
since its last calibration. -/
theorem C10_null_cycle_default (db : DB) (now : Int) (d : MonitorDevice)
    (hd : d ∈ db.devices) (hst : d.status ≠ "离线") (hc : d.calibration_cycle = none) :
    d ∈ get_devices_needing_calibration db now ↔
      (d.last_calibration_time = none ∨
        ∃ t, d.last_calibration_time = some t ∧ 30 ≤ timedeltaDays (now - t)) := by
  have hpy : pyOrInt d.calibration_cycle 30 = 30 := by rw [hc]; rfl
  constructor
  · intro hmem
    simp only [get_devices_needing_calibration, List.mem_filter] at hmem
    obtain ⟨⟨_, _⟩, hneed⟩ := hmem
    cases hlt : d.last_calibration_time with
    | none => exact Or.inl rfl
    | some t =>
      right
      refine ⟨t, rfl, ?_⟩
      simp only [needsCalibration, hlt, hpy] at hneed
      exact of_decide_eq_true hneed
  · intro hdue
    simp only [get_devices_needing_calibration, List.mem_filter]
    refine ⟨⟨hd, by simpa using hst⟩, ?_⟩
    cases hdue with
    | inl h => simp [needsCalibration, h]
    | inr h =>
      obtain ⟨t, ht, hle⟩ := h
      simp [needsCalibration, ht, hpy, hle]

/-- Witness for C10: the NULL-cycle device last calibrated 30 whole days
before the evaluation instant is returned. -/
theorem C10_null_cycle_default_witness :
    devC10 ∈ get_devices_needing_calibration dbC10 2592000 := by
  exact (C10_null_cycle_default dbC10 2592000 devC10 (by decide) (by decide) rfl).mpr
    (Or.inr ⟨0, rfl, by decide⟩)

/-- C1: a reading created while its indicator exists is persisted with the
abnormal flag set iff its value is strictly above the upper or strictly
below the lower threshold; when abnormal the stored reason embeds the value
and the violated bound (the exact branch strings are given); when the
indicator does not exist the reading is persisted as normal with no
reason. -/
theorem C1_abnormal_classification (db : DB) (data_id : String)
    (data : EnvironmentDataCreate) (now : Int) (r : EnvironmentData) (db' : DB)
    (hrun : create_environment_data db data_id data now = (r, db')) :
    r ∈ db'.envData ∧
    (∀ i, db.getMonitorIndex data.index_id = some i →
      (r.is_abnormal = 1 ↔
        (i.upper_threshold < data.monitor_value ∨ data.monitor_value < i.lower_threshold)) ∧
      (i.upper_threshold < data.monitor_value →
        r.abnormal_reason = some ("监测值" ++ toString data.monitor_value ++ "超过上限阈值"
          ++ toString i.upper_threshold)) ∧
      (¬ i.upper_threshold < data.monitor_value → data.monitor_value < i.lower_threshold →
        r.abnormal_reason = some ("监测值" ++ toString data.monitor_value ++ "低于下限阈值"
          ++ toString i.lower_threshold)) ∧
      (r.is_abnormal = 1 → ∃ bound pre mid,
        r.abnormal_reason = some (pre ++ toString data.monitor_value ++ mid ++ toString bound) ∧
        ((bound = i.upper_threshold ∧ i.upper_threshold < data.monitor_value) ∨
          (bound = i.lower_threshold ∧ data.monitor_value < i.lower_threshold)))) ∧
    (db.getMonitorIndex data.index_id = none →
      r.is_abnormal = 0 ∧ r.abnormal_reason = none) := by
  cases hmi : db.getMonitorIndex data.index_id with
  | none =>
    simp only [create_environment_data, hmi] at hrun
    rw [Prod.ext_iff] at hrun
    obtain ⟨hr, hdb⟩ := hrun
    subst hr
    subst hdb
    refine ⟨by simp, ?_, fun _ => ⟨rfl, rfl⟩⟩
    intro i hi
    cases hi
  | some i =>
    by_cases h1 : i.upper_threshold < data.monitor_value
    · simp only [create_environment_data, hmi, if_pos h1] at hrun
      rw [Prod.ext_iff] at hrun
      obtain ⟨hr, hdb⟩ := hrun
      subst hr
      subst hdb
      refine ⟨by simp, ?_, fun h => Option.noConfusion h⟩
      intro j hj
      injection hj with hj
      subst hj
      refine ⟨by simp [h1], fun _ => rfl, fun hn _ => absurd h1 hn, ?_⟩
      intro _
      exact ⟨i.upper_threshold, "监测值", "超过上限阈值", rfl, Or.inl ⟨rfl, h1⟩⟩
    · by_cases h2 : data.monitor_value < i.lower_threshold
      · simp only [create_environment_data, hmi, if_neg h1, if_pos h2] at hrun
        rw [Prod.ext_iff] at hrun
        obtain ⟨hr, hdb⟩ := hrun
        subst hr
        subst hdb
        refine ⟨by simp, ?_, fun h => Option.noConfusion h⟩
        intro j hj
        injection hj with hj
        subst hj
        refine ⟨by simp [h2], fun hu => absurd hu h1, fun _ _ => rfl, ?_⟩
        intro _
        exact ⟨i.lower_threshold, "监测值", "低于下限阈值", rfl, Or.inr ⟨rfl, h2⟩⟩
      · simp only [create_environment_data, hmi, if_neg h1, if_neg h2] at hrun
        rw [Prod.ext_iff] at hrun
        obtain ⟨hr, hdb⟩ := hrun
        subst hr
        subst hdb
        refine ⟨by simp, ?_, fun h => Option.noConfusion h⟩
        intro j hj
        injection hj with hj
        subst hj
        refine ⟨by simp [h1, h2], fun hu => absurd hu h1, fun _ hl => absurd hl h2, ?_⟩
        intro h
        cases h

/-- Witness for C1: against the PM2.5 indicator (upper 75), the value-120
reading is persisted abnormal with the upper-bound reason string. -/
theorem C1_abnormal_classification_witness :
    (create_environment_data dbC1 "ED1" dataC1 1000).1.is_abnormal = 1 ∧
    (create_environment_data dbC1 "ED1" dataC1 1000).1.abnormal_reason =
      some ("监测值" ++ toString dataC1.monitor_value ++ "超过上限阈值"
        ++ toString idxC1.upper_threshold) := by
  have h := C1_abnormal_classification dbC1 "ED1" dataC1 1000
    (create_environment_data dbC1 "ED1" dataC1 1000).1
    (create_environment_data dbC1 "ED1" dataC1 1000).2 rfl
  have hfind : dbC1.getMonitorIndex dataC1.index_id = some idxC1 := rfl
  have hup : idxC1.upper_threshold < dataC1.monitor_value := by decide
  have h2 := h.2.1 idxC1 hfind
  exact ⟨h2.1.mpr (Or.inl hup), h2.2.1 hup⟩

/-- C3: for an existing reading, `update_data_audit_status` (any new status,
at any time) sets the audit status, overwrites the stored reason exactly
when one is supplied, changes no other field of the reading besides the
update timestamp, leaves every other table and every other reading intact,
and keeps the updated reading retrievable; for a missing reading it returns
the NotFound outcome (`none`) and produces no new store. -/
theorem C3_audit_update (db : DB) (data_id new_status : String)
    (reason : Option String) (now : Int) :
    (∀ r, db.getEnvironmentData data_id = some r →
      (update_data_audit_status db data_id new_status reason now).isSome = true) ∧
    (∀ r r' db', db.getEnvironmentData data_id = some r →
      update_data_audit_status db data_id new_status reason now = some (r', db') →
        r'.audit_status = new_status ∧
        (∀ s, reason = some s → r'.abnormal_reason = some s) ∧
        (reason = none → r'.abnormal_reason = r.abnormal_reason) ∧
        r'.is_abnormal = r.is_abnormal ∧
        r'.data_id = r.data_id ∧ r'.index_id = r.index_id ∧ r'.device_id = r.device_id ∧
        r'.collect_time = r.collect_time ∧ r'.monitor_value = r.monitor_value ∧
        r'.area_id = r.area_id ∧ r'.data_quality = r.data_quality ∧
        r'.created_at = r.created_at ∧ r'.updated_at = now ∧
        db'.getEnvironmentData data_id = some r' ∧
        db'.indices = db.indices ∧ db'.devices = db.devices ∧
        db'.calRecords = db.calRecords ∧ db'.areas = db.areas ∧
        (∀ x ∈ db.envData, x.data_id ≠ data_id → x ∈ db'.envData)) ∧
    (db.getEnvironmentData data_id = none →
      update_data_audit_status db data_id new_status reason now = none) := by
  refine ⟨?_, ?_, ?_⟩
  · intro r hr
    simp only [update_data_audit_status, hr, Option.isSome_some]
  · intro r r' db' hr hrun
    have hr0 : db.envData.find? (fun d => d.data_id == data_id) = some r := hr
    have hpr := List.find?_some hr0
    simp only [update_data_audit_status, hr] at hrun
    injection hrun with hrun
    rw [Prod.ext_iff] at hrun
    obtain ⟨h1, h2⟩ := hrun
    subst h1
    subst h2
    refine ⟨rfl, ?_, ?_, rfl, rfl, rfl, rfl, rfl, rfl, rfl, rfl, rfl, rfl, ?_,
      rfl, rfl, rfl, rfl, ?_⟩
    · intro s hs
      subst hs
      rfl
    · intro hs
      subst hs
      rfl
    · exact find?_map_ite (fun d => d.data_id == data_id)
        (fun _ => applyAuditUpdate new_status reason now r)
        (fun x _ => hpr) db.envData r hr0
    · intro x hx hne
      refine List.mem_map.mpr ⟨x, hx, ?_⟩
      simp [hne]
  · intro h
    simp only [update_data_audit_status, h]

/-- Witness for C3: auditing the stored abnormal reading with no reason
argument succeeds, sets the status and leaves reason and flag unchanged. -/
theorem C3_audit_update_witness :
    ((update_data_audit_status dbC3 "ED1" "已审核" none 0).map
      (fun p => (p.1.audit_status, p.1.abnormal_reason, p.1.is_abnormal))) =
      some ("已审核", envC3.abnormal_reason, envC3.is_abnormal) := by
  obtain ⟨hstat, _hs, hnone, habn, _⟩ :=
    (C3_audit_update dbC3 "ED1" "已审核" none 0).2.1 envC3
      ((update_data_audit_status dbC3 "ED1" "已审核" none 0).getD (envC3, dbC3)).1
      ((update_data_audit_status dbC3 "ED1" "已审核" none 0).getD (envC3, dbC3)).2
      rfl rfl
  rw [show update_data_audit_status dbC3 "ED1" "已审核" none 0 =
    some (((update_data_audit_status dbC3 "ED1" "已审核" none 0).getD (envC3, dbC3)).1,
      ((update_data_audit_status dbC3 "ED1" "已审核" none 0).getD (envC3, dbC3)).2) from rfl]
  simp [hstat, hnone rfl, habn]

/-- C4: recording a calibration always persists the new record; when the
referenced device exists, the same resulting store also carries the device
with `last_calibration_time` set to the record's calibration time and its
update timestamp bumped (one atomic transition publishes both); when the
device does not exist the record is still persisted and the device table is
untouched. -/
theorem C4_record_calibration (db : DB) (record_id : String)
    (record : CalibrationRecordCreate) (now : Int) (rec : CalibrationRecord) (db' : DB)
    (hrun : create_calibration_record db record_id record now = (rec, db')) :
    rec ∈ db'.calRecords ∧
    rec.record_id = record_id ∧ rec.device_id = record.device_id ∧
    rec.calibration_time = record.calibration_time ∧
    (∀ d, db.getMonitorDevice record.device_id = some d →
      db'.getMonitorDevice record.device_id =
        some { d with last_calibration_time := some record.calibration_time,
                      updated_at := now }) ∧
    (db.getMonitorDevice record.device_id = none → db'.devices = db.devices) ∧
    db'.envData = db.envData ∧ db'.indices = db.indices ∧ db'.areas = db.areas := by
  cases hdev : db.getMonitorDevice record.device_id with
  | none =>
    simp only [create_calibration_record, hdev] at hrun
    rw [Prod.ext_iff] at hrun
    obtain ⟨h1, h2⟩ := hrun
    subst h1
    subst h2
    refine ⟨by simp, rfl, rfl, rfl, ?_, fun _ => rfl, rfl, rfl, rfl⟩
    intro d hd
    cases hd
  | some d0 =>
    simp only [create_calibration_record, hdev] at hrun
    rw [Prod.ext_iff] at hrun
    obtain ⟨h1, h2⟩ := hrun
    subst h1
    subst h2
    refine ⟨by simp, rfl, rfl, rfl, ?_, fun h => Option.noConfusion h, rfl, rfl, rfl⟩
    intro d hd
    injection hd with hd
    subst hd
    have hdev0 : db.devices.find? (fun x => x.id == record.device_id) = some d0 := hdev
    exact find?_map_ite (fun x => x.id == record.device_id)
      (fun x => { x with last_calibration_time := some record.calibration_time,
                         updated_at := now })
      (fun x hx => hx) db.devices d0 hdev0

/-- Witness for C4: recording a calibration at time 500 against the stored
device 7 persists the record and moves the device's last calibration time to
500 in the same resulting store. -/
theorem C4_record_calibration_witness :
    (create_calibration_record dbC4 "CR9" recC4 900).1 ∈
      (create_calibration_record dbC4 "CR9" recC4 900).2.calRecords ∧
    (create_calibration_record dbC4 "CR9" recC4 900).2.getMonitorDevice 7 =
      some { devC4 with last_calibration_time := some 500, updated_at := 900 } := by
  have h := C4_record_calibration dbC4 "CR9" recC4 900
    (create_calibration_record dbC4 "CR9" recC4 900).1
    (create_calibration_record dbC4 "CR9" recC4 900).2 rfl
  exact ⟨h.1, h.2.2.2.2.1 devC4 rfl⟩

/-- C5: the report's overdue predicate (NULL last calibration, or strictly
more day boundaries crossed than the cycle) is strictly stronger than the
scheduler's due predicate: under the data-model invariant that a stored
cycle is positive, every device it selects is also due for the scheduler;
and for the concrete device calibrated exactly its cycle of 30 whole days
before the evaluation instant the scheduler predicate holds while the
report predicate does not. -/
theorem C5_overdue_predicate_refinement :
    (∀ (now : Int) (d : MonitorDevice),
      (∀ c, d.calibration_cycle = some c → 0 < c) →
      reportOverdue now d = true → needsCalibration now d = true) ∧
    (needsCalibration 2592000 devC5 = true ∧ reportOverdue 2592000 devC5 = false ∧
      devC5.calibration_cycle = some 30 ∧ devC5.last_calibration_time = some 0 ∧
      timedeltaDays (2592000 - 0) = 30) := by
  constructor
  · intro now d hpos hrep
    cases hlt : d.last_calibration_time with
    | none => simp [needsCalibration, hlt]
    | some t =>
      simp only [reportOverdue, hlt] at hrep
      cases hc : d.calibration_cycle with
      | none => rw [hc] at hrep; cases hrep
      | some c =>
        rw [hc] at hrep
        have hlt2 : c < datediffDay t now := of_decide_eq_true hrep
        have hcpos := hpos c hc
        have hdle := datediffDay_le_timedeltaDays_add_one t now
        have hpy : pyOrInt d.calibration_cycle 30 = c := by
          rw [hc]
          show (if c = 0 then (30:ℤ) else c) = c
          rw [if_neg (by omega)]
        simp only [needsCalibration, hlt, hpy]
        exact decide_eq_true (by omega)
  · exact ⟨by decide, by decide, rfl, rfl, by decide⟩

/-- Witness for C5: a device 31 whole days past its 30-day cycle is selected
by the report predicate, and the refinement transfers this to the scheduler
predicate. -/
theorem C5_overdue_predicate_refinement_witness :
    needsCalibration 2678500 devC5w = true := by
  exact C5_overdue_predicate_refinement.1 2678500 devC5w
    (fun c hc => by
      have h30 : some (30:ℤ) = some c := hc
      injection h30 with h30
      omega)
    (by decide)

/-- C9: partially updating an existing indicator applies exactly the
supplied (non-null) fields, refreshes the update timestamp, and leaves the
indicator id, the creation timestamp, each unsupplied field and every other
table unchanged; and every reading built by `create_environment_data`
starts with audit status "未审核" (Unaudited), whatever its abnormal flag. -/
theorem C9_partial_update_and_default (db : DB) (index_id : String)
    (u : MonitorIndexUpdate) (now : Int) (idx idx' : MonitorIndex) (db' : DB)
    (hidx : db.getMonitorIndex index_id = some idx)
    (hrun : update_monitor_index db index_id u now = some (idx', db')) :
    (idx'.index_id = idx.index_id ∧ idx'.created_at = idx.created_at ∧
      idx'.updated_at = now ∧
      (∀ s, u.index_name = some s → idx'.index_name = s) ∧
      (u.index_name = none → idx'.index_name = idx.index_name) ∧
      (∀ s, u.unit = some s → idx'.unit = s) ∧
      (u.unit = none → idx'.unit = idx.unit) ∧
      (∀ q, u.upper_threshold = some q → idx'.upper_threshold = q) ∧
      (u.upper_threshold = none → idx'.upper_threshold = idx.upper_threshold) ∧
      (∀ q, u.lower_threshold = some q → idx'.lower_threshold = q) ∧
      (u.lower_threshold = none → idx'.lower_threshold = idx.lower_threshold) ∧
      (∀ s, u.monitor_frequency = some s → idx'.monitor_frequency = s) ∧
      (u.monitor_frequency = none → idx'.monitor_frequency = idx.monitor_frequency) ∧
      db'.devices = db.devices ∧ db'.envData = db.envData ∧
      db'.calRecords = db.calRecords ∧ db'.areas = db.areas) ∧
    (∀ (db2 : DB) (did : String) (data : EnvironmentDataCreate) (now2 : Int),
      (create_environment_data db2 did data now2).1.audit_status = "未审核") := by
  simp only [update_monitor_index, hidx] at hrun
  injection hrun with hrun
  rw [Prod.ext_iff] at hrun
  obtain ⟨h1, h2⟩ := hrun
  subst h1
  subst h2
  refine ⟨⟨rfl, rfl, rfl, ?_, ?_, ?_, ?_, ?_, ?_, ?_, ?_, ?_, ?_, rfl, rfl, rfl, rfl⟩,
    fun _ _ _ _ => rfl⟩
  · intro s hs; simp [applyMonitorIndexUpdate, hs]
  · intro hs; simp [applyMonitorIndexUpdate, hs]
  · intro s hs; simp [applyMonitorIndexUpdate, hs]
  · intro hs; simp [applyMonitorIndexUpdate, hs]
  · intro q hq; simp [applyMonitorIndexUpdate, hq]
  · intro hq; simp [applyMonitorIndexUpdate, hq]
  · intro q hq; simp [applyMonitorIndexUpdate, hq]
  · intro hq; simp [applyMonitorIndexUpdate, hq]
  · intro s hs; simp [applyMonitorIndexUpdate, hs]
  · intro hs; simp [applyMonitorIndexUpdate, hs]

/-- Witness for C9: updating only the name and the upper threshold of the
stored PM2.5 indicator applies those two fields, keeps unit and lower
threshold, and stamps the update time. -/
theorem C9_partial_update_and_default_witness :
    ((update_monitor_index dbC9 "PM25" updC9 50).map
      (fun p => (p.1.index_name, p.1.unit, p.1.upper_threshold,
        p.1.lower_threshold, p.1.updated_at))) =
      some ("PM2.5浓度", idxC1.unit, 80, idxC1.lower_threshold, 50) ∧
    (create_environment_data dbC9 "ED2" dataC1 60).1.audit_status = "未审核" := by
  obtain ⟨h1, h2⟩ := C9_partial_update_and_default dbC9 "PM25" updC9 50 idxC1
    ((update_monitor_index dbC9 "PM25" updC9 50).getD (idxC1, dbC9)).1
    ((update_monitor_index dbC9 "PM25" updC9 50).getD (idxC1, dbC9)).2 rfl rfl
  obtain ⟨_, _, hupd, hn1, _, _, hu2, hq1, _, _, hq4, _, _, _, _, _, _⟩ := h1
  constructor
  · rw [show update_monitor_index dbC9 "PM25" updC9 50 =
      some (((update_monitor_index dbC9 "PM25" updC9 50).getD (idxC1, dbC9)).1,
        ((update_monitor_index dbC9 "PM25" updC9 50).getD (idxC1, dbC9)).2) from rfl]
    simp [hn1 "PM2.5浓度" rfl, hu2 rfl, hq1 80 rfl, hq4 rfl, hupd]
  · exact h2 dbC9 "ED2" dataC1 60

/-- C6 counterexample: with three window readings of which one is qualified,
the produced `qualified_rate` is `round(100/3, 2) = 33.33`, which is not
equal to `100 × 1 / 3` — the claim's unrounded formula does not hold of the
code, which rounds to two decimal places (queries.py:266). -/
theorem C6_counterexample :
    ((get_device_data_quality_rate dbC6s 0 90).map
      (fun row => (row.device_id, row.total_data_count, row.qualified_count))) =
      [(1, 3, 1)] ∧
    ((get_device_data_quality_rate dbC6s 0 90).map
      (fun row => row.qualified_rate)) = [3333/100] ∧
    (3333/100 : ℚ) ≠ (((1:Nat) : ℚ)) * 100 / (((3:Nat)) : ℚ) := by
  refine ⟨rfl, ?_, by push_cast; norm_num⟩
  have hfl : Rat.floor ((((1:Nat) : ℚ)) * 100 / (((3:Nat)) : ℚ) * 100) = 3333 := by
    have h1 : (3333:ℤ) ≤ Rat.floor ((((1:Nat) : ℚ)) * 100 / (((3:Nat)) : ℚ) * 100) :=
      Rat.le_floor.mpr (by push_cast; norm_num)
    have h2 : ¬ (3334:ℤ) ≤ Rat.floor ((((1:Nat) : ℚ)) * 100 / (((3:Nat)) : ℚ) * 100) := by
      intro h
      have h' := Rat.le_floor.mp h
      push_cast at h'
      norm_num at h'
    omega
  have harith : roundTo2 ((((1:Nat) : ℚ)) * 100 / (((3:Nat)) : ℚ)) = 3333/100 := by
    simp only [roundTo2, roundHalfEven]
    rw [hfl]
    rw [if_pos (by push_cast; norm_num)]
    push_cast
    norm_num
  rw [show ((get_device_data_quality_rate dbC6s 0 90).map
      (fun row => row.qualified_rate)) =
    [roundTo2 ((((1:Nat) : ℚ)) * 100 / (((3:Nat)) : ℚ))] from rfl, harith]

/-- C6 (amended): every stored device whose deployment area resolves appears
in the quality-rate report with its area name, its window totals, and
`qualified_rate = round(100·qualified/total, 2)` — exactly `0.0` (not an
error and not null) when it has no window readings — and the report is
ordered by `qualified_rate` descending. -/
theorem C6_quality_rate (db : DB) (now days : Int) (d : MonitorDevice) (a : Area)
    (hd : d ∈ db.devices) (haid : d.deployment_area_id = some a.id)
    (ha : db.getArea a.id = some a) :
    (∃ row ∈ get_device_data_quality_rate db now days,
      row.device_id = d.id ∧ row.device_type = d.type ∧ row.area_name = a.name ∧
      row.total_data_count = (deviceWindowData db (now - days * 86400) d.id).length ∧
      row.qualified_count =
        ((deviceWindowData db (now - days * 86400) d.id).filter
          (fun r => qualifiedGrade r.data_quality)).length ∧
      row.qualified_rate =
        (if row.total_data_count = 0 then 0
          else roundTo2 ((row.qualified_count : ℚ) * 100 / (row.total_data_count : ℚ))) ∧
      (row.total_data_count = 0 → row.qualified_count = 0 ∧ row.qualified_rate = 0)) ∧
    List.Sorted rateDesc (get_device_data_quality_rate db now days) := by
  constructor
  · refine ⟨{ device_id := d.id
              device_type := d.type
              area_name := a.name
              total_data_count := (deviceWindowData db (now - days * 86400) d.id).length
              qualified_count := ((deviceWindowData db (now - days * 86400) d.id).filter
                (fun r => qualifiedGrade r.data_quality)).length
              qualified_rate :=
                if (deviceWindowData db (now - days * 86400) d.id).length = 0 then 0
                else roundTo2
                  ((((deviceWindowData db (now - days * 86400) d.id).filter
                      (fun r => qualifiedGrade r.data_quality)).length : ℚ) * 100 /
                    (((deviceWindowData db (now - days * 86400) d.id).length : ℚ))) },
      ?_, rfl, rfl, rfl, rfl, rfl, rfl, ?_⟩
    · simp only [get_device_data_quality_rate, List.mem_insertionSort, List.mem_filterMap]
      refine ⟨d, hd, ?_⟩
      rw [haid, show (some a.id).bind db.getArea = db.getArea a.id from rfl, ha]
    · intro h0
      have h0' : (deviceWindowData db (now - days * 86400) d.id).length = 0 := h0
      have hle := List.length_filter_le (fun r => qualifiedGrade r.data_quality)
        (deviceWindowData db (now - days * 86400) d.id)
      constructor
      · show (List.filter (fun r => qualifiedGrade r.data_quality)
          (deviceWindowData db (now - days * 86400) d.id)).length = 0
        omega
      · show (if (deviceWindowData db (now - days * 86400) d.id).length = 0 then (0:ℚ)
            else roundTo2
              ((((deviceWindowData db (now - days * 86400) d.id).filter
                  (fun r => qualifiedGrade r.data_quality)).length : ℚ) * 100 /
                (((deviceWindowData db (now - days * 86400) d.id).length : ℚ)))) = 0
        rw [if_pos h0']
  · simp only [get_device_data_quality_rate]
    exact List.sorted_insertionSort rateDesc _

/-- Witness for C6: the hypotheses are discharged on the stored device 2
(zero readings), whose area resolves, and the report of the fixture store is
sorted by rate descending. -/
theorem C6_quality_rate_witness :
    List.Sorted rateDesc (get_device_data_quality_rate dbC6 0 90) := by
  exact (C6_quality_rate dbC6 0 90 devC6b areaC6 (by decide) rfl rfl).2

/-- C8 counterexample: the only reading of the fixture store was collected at
instant 7776000 (day 90), after the report's evaluation instant 0, yet the
report over a 30-day window "ending at the call time" returns it — the query
has no upper bound on collection time (queries.py:335), so the result is not
restricted to the window ending at the call. -/
theorem C8_counterexample :
    ((query_core_protection_abnormal_data dbC8 "空气质量PM2.5" 0 30).map
      (fun row => (row.data_id, row.collect_time))) = [("E9", 7776000)] ∧
    ¬ ((7776000 : Int) ≤ 0) := by
  exact ⟨rfl, by decide⟩

/-- C8 (amended): the protected-area abnormal report returns exactly the
readings that are flagged abnormal, have collection time at or after
`now − days` (the code applies no upper bound at the call time), resolve to
an indicator carrying the requested name, and resolve to an area of the
core-protection category, ordered by collection time descending; when no
indicator carries the requested name the result is empty (a valid,
non-error outcome). -/
theorem C8_core_abnormal (db : DB) (index_name : String) (now days : Int) :
    (∀ row ∈ query_core_protection_abnormal_data db index_name now days,
      ∃ r ∈ db.envData, ∃ idx dev area,
        db.getMonitorIndex r.index_id = some idx ∧
        db.getMonitorDevice r.device_id = some dev ∧
        db.getArea r.area_id = some area ∧
        area.type = "核心保护区" ∧ idx.index_name = index_name ∧
        r.is_abnormal = 1 ∧ now - days * 86400 ≤ r.collect_time ∧
        row = { data_id := r.data_id, collect_time := r.collect_time,
                monitor_value := r.monitor_value, upper_threshold := idx.upper_threshold,
                lower_threshold := idx.lower_threshold, device_id := dev.id,
                device_type := dev.type, run_status := dev.status, area_name := area.name,
                abnormal_reason := r.abnormal_reason }) ∧
    (∀ r ∈ db.envData, ∀ idx dev area,
      db.getMonitorIndex r.index_id = some idx →
      db.getMonitorDevice r.device_id = some dev →
      db.getArea r.area_id = some area →
      area.type = "核心保护区" → idx.index_name = index_name →
      r.is_abnormal = 1 → now - days * 86400 ≤ r.collect_time →
      ({ data_id := r.data_id, collect_time := r.collect_time,
         monitor_value := r.monitor_value, upper_threshold := idx.upper_threshold,
         lower_threshold := idx.lower_threshold, device_id := dev.id,
         device_type := dev.type, run_status := dev.status, area_name := area.name,
         abnormal_reason := r.abnormal_reason } : CoreAbnormalRow) ∈
        query_core_protection_abnormal_data db index_name now days) ∧
    List.Sorted collectTimeDesc (query_core_protection_abnormal_data db index_name now days) ∧
    ((∀ i ∈ db.indices, i.index_name ≠ index_name) →
      query_core_protection_abnormal_data db index_name now days = []) := by
  refine ⟨?_, ?_, ?_, ?_⟩
  · intro row hrow
    simp only [query_core_protection_abnormal_data, List.mem_insertionSort,
      List.mem_filterMap] at hrow
    obtain ⟨r, hr, hfr⟩ := hrow
    refine ⟨r, hr, ?_⟩
    cases hidx : db.getMonitorIndex r.index_id with
    | none =>
      simp only [hidx] at hfr
      exact Option.noConfusion hfr
    | some idx =>
      cases hdev : db.getMonitorDevice r.device_id with
      | none =>
        simp only [hidx, hdev] at hfr
        exact Option.noConfusion hfr
      | some dev =>
        cases harea : db.getArea r.area_id with
        | none =>
          simp only [hidx, hdev, harea] at hfr
          exact Option.noConfusion hfr
        | some area =>
          simp only [hidx, hdev, harea] at hfr
          by_cases hcond : (area.type == "核心保护区" && idx.index_name == index_name
              && r.is_abnormal == 1 && decide (now - days * 86400 ≤ r.collect_time)) = true
          · rw [if_pos hcond] at hfr
            injection hfr with hfr
            simp only [Bool.and_eq_true, beq_iff_eq, decide_eq_true_eq] at hcond
            obtain ⟨⟨⟨h1, h2⟩, h3⟩, h4⟩ := hcond
            exact ⟨idx, dev, area, rfl, rfl, rfl, h1, h2, h3, h4, hfr.symm⟩
          · rw [if_neg hcond] at hfr
            cases hfr
  · intro r hr idx dev area hidx hdev harea ht hn hab hw
    simp only [query_core_protection_abnormal_data, List.mem_insertionSort,
      List.mem_filterMap]
    refine ⟨r, hr, ?_⟩
    simp only [hidx, hdev, harea]
    rw [if_pos ?_]
    simp only [Bool.and_eq_true, beq_iff_eq, decide_eq_true_eq]
    exact ⟨⟨⟨ht, hn⟩, hab⟩, hw⟩
  · simp only [query_core_protection_abnormal_data]
    exact List.sorted_insertionSort collectTimeDesc _
  · intro hno
    simp only [query_core_protection_abnormal_data]
    refine Eq.trans (congrArg (List.insertionSort collectTimeDesc)
      (List.filterMap_eq_nil_iff.mpr ?_)) rfl
    intro r hr
    cases hidx : db.getMonitorIndex r.index_id with
    | none => simp [hidx]
    | some idx =>
      have hne : idx.index_name ≠ index_name :=
        hno idx (List.mem_of_find?_eq_some hidx)
      cases hdev : db.getMonitorDevice r.device_id with
      | none => simp [hidx, hdev]
      | some dev =>
        cases harea : db.getArea r.area_id with
        | none => simp [hidx, hdev, harea]
        | some area => simp [hidx, hdev, harea, hne]

/-- Witness for C8: on the empty store (no indicator carries any name) the
report is empty, via the last part of the theorem with its hypothesis
discharged. -/
theorem C8_core_abnormal_witness :
    query_core_protection_abnormal_data dbEmpty "空气质量PM2.5" 0 30 = [] := by
  exact (C8_core_abnormal dbEmpty "空气质量PM2.5" 0 30).2.2.2 (by simp [dbEmpty])

/-- Reapplying the same optional value with `getD` changes nothing. -/
theorem getD_getD {α : Type} (o : Option α) (x : α) : o.getD (o.getD x) = o.getD x := by
  cases o <;> rfl

/-- The partial-update step of `update_monitor_index` is idempotent. -/
theorem applyMonitorIndexUpdate_idem (u : MonitorIndexUpdate) (idx : MonitorIndex)
    (now : Int) :
    applyMonitorIndexUpdate u (applyMonitorIndexUpdate u idx now) now =
      applyMonitorIndexUpdate u idx now := by
  simp [applyMonitorIndexUpdate, getD_getD]

/-- The audit-field writes of `update_data_audit_status` are idempotent. -/
theorem applyAuditUpdate_idem (s : String) (o : Option String) (now : Int)
    (x : EnvironmentData) :
    applyAuditUpdate s o now (applyAuditUpdate s o now x) = applyAuditUpdate s o now x := by
  cases o <;> rfl

/-- C7 (amended): indicator create and reading create raise Conflict when
called with an id that already exists, rather than overwriting the existing
row; calibration-record create performs no duplicate-id check and
unconditionally hands the record to the store; and the non-create mutating
operations are idempotent — retrying an update reproduces the same value
and state, retrying a delete reports a miss and leaves the state — so a
caller retry is safe. -/
theorem C7_duplicate_ids_and_retry (db : DB) (now : Int) :
    (∀ index : MonitorIndexCreate, (db.getMonitorIndex index.index_id).isSome = true →
      api_create_monitor_index db index now = .error .Conflict) ∧
    (∀ (data : EnvironmentDataCreate) (g : String),
      (db.getEnvironmentData (resolveId data.data_id g)).isSome = true →
      api_create_environment_data db data g now = .error .Conflict) ∧
    (∀ (record : CalibrationRecordCreate) (g : String),
      api_create_calibration_record db record g now =
        .ok (create_calibration_record db (resolveId record.record_id g) record now)) ∧
    (∀ iid u idx' db', update_monitor_index db iid u now = some (idx', db') →
      update_monitor_index db' iid u now = some (idx', db')) ∧
    (∀ did sv dev' db', update_device_status db did sv now = some (dev', db') →
      update_device_status db' did sv now = some (dev', db')) ∧
    (∀ did st reason r' db', update_data_audit_status db did st reason now = some (r', db') →
      update_data_audit_status db' did st reason now = some (r', db')) ∧
    (∀ iid db', delete_monitor_index db iid = (true, db') →
      delete_monitor_index db' iid = (false, db')) ∧
    (∀ did db', delete_environment_data db did = (true, db') →
      delete_environment_data db' did = (false, db')) ∧
    (∀ rid db', delete_calibration_record db rid = (true, db') →
      delete_calibration_record db' rid = (false, db')) := by
  refine ⟨?_, ?_, ?_, ?_, ?_, ?_, ?_, ?_, ?_⟩
  · intro index hex
    cases hidx : db.getMonitorIndex index.index_id with
    | none => simp [hidx] at hex
    | some _ => simp only [api_create_monitor_index, hidx]
  · intro data g hex
    cases hdat : db.getEnvironmentData (resolveId data.data_id g) with
    | none => simp [hdat] at hex
    | some _ => simp only [api_create_environment_data, hdat]
  · intro record g
    rfl
  · intro iid u idx' db' hrun
    cases hidx : db.getMonitorIndex iid with
    | none =>
      simp only [update_monitor_index, hidx] at hrun
      exact Option.noConfusion hrun
    | some idx =>
      have hid0 : db.indices.find? (fun i => i.index_id == iid) = some idx := hidx
      have hpidx := List.find?_some hid0
      simp only [update_monitor_index, hidx] at hrun
      injection hrun with hrun
      rw [Prod.ext_iff] at hrun
      obtain ⟨h1, h2⟩ := hrun
      subst h1
      subst h2
      have hA : ({ db with
              indices := db.indices.map
                  (fun i => if i.index_id == iid then applyMonitorIndexUpdate u idx now
                    else i) } :
          DB).getMonitorIndex iid = some (applyMonitorIndexUpdate u idx now) :=
        find?_map_ite _ (fun _ => applyMonitorIndexUpdate u idx now) (fun x _ => hpidx)
          db.indices idx hid0
      simp only [update_monitor_index, hA, applyMonitorIndexUpdate_idem]
      rw [map_ite_idem (fun i => i.index_id == iid) (applyMonitorIndexUpdate u idx now)
        hpidx db.indices]
  · intro did sv dev' db' hrun
    cases hdev : db.getMonitorDevice did with
    | none =>
      simp only [update_device_status, hdev] at hrun
      exact Option.noConfusion hrun
    | some dev =>
      have hd0 : db.devices.find? (fun d => d.id == did) = some dev := hdev
      have hpdev := List.find?_some hd0
      simp only [update_device_status, hdev] at hrun
      injection hrun with hrun
      rw [Prod.ext_iff] at hrun
      obtain ⟨h1, h2⟩ := hrun
      subst h1
      subst h2
      have hA : ({ db with
              devices := db.devices.map
                  (fun d => if d.id == did then { dev with status := sv, updated_at := now }
                    else d) } :
          DB).getMonitorDevice did = some { dev with status := sv, updated_at := now } :=
        find?_map_ite (fun (d : MonitorDevice) => d.id == did)
          (fun _ => ({ dev with status := sv, updated_at := now } : MonitorDevice))
          (fun x _ => hpdev) db.devices dev hd0
      simp only [update_device_status, hA]
      rw [map_ite_idem (fun d => d.id == did) { dev with status := sv, updated_at := now }
        hpdev db.devices]
  · intro did st reason r' db' hrun
    cases hdat : db.getEnvironmentData did with
    | none =>
      simp only [update_data_audit_status, hdat] at hrun
      exact Option.noConfusion hrun
    | some r =>
      have hr0 : db.envData.find? (fun d => d.data_id == did) = some r := hdat
      have hpr := List.find?_some hr0
      simp only [update_data_audit_status, hdat] at hrun
      injection hrun with hrun
      rw [Prod.ext_iff] at hrun
      obtain ⟨h1, h2⟩ := hrun
      subst h1
      subst h2
      have hA : ({ db with
              envData := db.envData.map
                  (fun d => if d.data_id == did then applyAuditUpdate st reason now r
                    else d) } :
          DB).getEnvironmentData did = some (applyAuditUpdate st reason now r) :=
        find?_map_ite _ (fun _ => applyAuditUpdate st reason now r) (fun x _ => hpr)
          db.envData r hr0
      simp only [update_data_audit_status, hA, applyAuditUpdate_idem]
      rw [map_ite_idem (fun d => d.data_id == did) (applyAuditUpdate st reason now r)
        hpr db.envData]
  · intro iid db' hdel
    cases hidx : db.getMonitorIndex iid with
    | none => simp [delete_monitor_index, hidx, Prod.ext_iff] at hdel
    | some i =>
      simp only [delete_monitor_index, hidx] at hdel
      rw [Prod.ext_iff] at hdel
      obtain ⟨_, h2⟩ := hdel
      subst h2
      have hnone : ({ db with
              indices := db.indices.filter (fun i => i.index_id != iid) } :
          DB).getMonitorIndex iid = none :=
        find?_filter_neg (fun (i : MonitorIndex) => i.index_id == iid)
          (fun (i : MonitorIndex) => i.index_id != iid) (fun x => rfl) db.indices
      simp only [delete_monitor_index, hnone]
  · intro did db' hdel
    cases hdat : db.getEnvironmentData did with
    | none => simp [delete_environment_data, hdat, Prod.ext_iff] at hdel
    | some r =>
      simp only [delete_environment_data, hdat] at hdel
      rw [Prod.ext_iff] at hdel
      obtain ⟨_, h2⟩ := hdel
      subst h2
      have hnone : ({ db with
              envData := db.envData.filter (fun d => d.data_id != did) } :
          DB).getEnvironmentData did = none :=
        find?_filter_neg (fun (d : EnvironmentData) => d.data_id == did)
          (fun (d : EnvironmentData) => d.data_id != did) (fun x => rfl) db.envData
      simp only [delete_environment_data, hnone]
  · intro rid db' hdel
    cases hrec : db.getCalibrationRecord rid with
    | none => simp [delete_calibration_record, hrec, Prod.ext_iff] at hdel
    | some r =>
      simp only [delete_calibration_record, hrec] at hdel
      rw [Prod.ext_iff] at hdel
      obtain ⟨_, h2⟩ := hdel
      subst h2
      have hnone : ({ db with
              calRecords := db.calRecords.filter (fun r => r.record_id != rid) } :
          DB).getCalibrationRecord rid = none :=
        find?_filter_neg (fun (r : CalibrationRecord) => r.record_id == rid)
          (fun (r : CalibrationRecord) => r.record_id != rid) (fun x => rfl) db.calRecords
      simp only [delete_calibration_record, hnone]

/-- C7 counterexample: record id "CR1" already exists in the store, yet
calibration-record create does not raise Conflict — it hands the duplicate
to the store, which afterwards holds two records with the same id
(api.py:197-206 has no existence check, unlike api.py:49-51 and
api.py:145-147). -/
theorem C7_counterexample :
    (dbC7.getCalibrationRecord "CR1").isSome = true ∧
    api_create_calibration_record dbC7 recC7 "GEN" 0 =
      .ok (create_calibration_record dbC7 "CR1" recC7 0) ∧
    api_create_calibration_record dbC7 recC7 "GEN" 0 ≠ .error .Conflict ∧
    (create_calibration_record dbC7 "CR1" recC7 0).2.calRecords.countP
      (fun r => r.record_id == "CR1") = 2 := by
  refine ⟨rfl, rfl, ?_, rfl⟩
  intro h
  rw [show api_create_calibration_record dbC7 recC7 "GEN" 0 =
    Except.ok (create_calibration_record dbC7 "CR1" recC7 0) from rfl] at h
  exact Except.noConfusion h

/-- Witness for C7: the duplicate-id hypotheses are discharged on the fixture
store, where indicator "PM25" and reading "ED1" already exist. -/
theorem C7_duplicate_ids_and_retry_witness :
    api_create_monitor_index dbC7
      { index_id := "PM25", index_name := "重复指标", unit := "x",
        upper_threshold := 1, lower_threshold := 0, monitor_frequency := "日" } 0 =
      .error .Conflict ∧
    api_create_environment_data dbC7 dataC1 "GEN" 0 = .error .Conflict := by
  have h := C7_duplicate_ids_and_retry dbC7 0
  exact ⟨h.1 _ rfl, h.2.1 dataC1 "GEN" rfl⟩
